import Mathlib

/-!
Verification development for the forecasting pipeline of the
`Proj_BI_Econ` repository (module `src/dados/processadores/previsao.py`
and the forecast section of `src/visualizacao/dashboard.py`).

The pandas `DataFrame` values the code manipulates are embedded as lists
of rows of cells (`Celula`), with the operations the code actually uses
(column selection, rename, `pd.to_datetime`, `pd.to_numeric(errors
coerce)`, `dropna`, `sort_values`) translated one by one.  The external
Prophet library is embedded only through the surface the repository
touches: construction, `fit` (which may raise, modelled by a boolean
outcome supplied by the environment), `make_future_dataframe` with its
default daily frequency, and `predict` (whose numeric estimates are an
external capability, modelled as a function parameter).
-/

/-- Column-name constants used by the repository. -/
def colDs : String := "ds"

def colY : String := "y"

def colData : String := "data"

def colValor : String := "valor"

def colDeficit : String := "deficit"

def colIof : String := "iof"

def colAno : String := "ano"

def tipoProphet : String := "prophet"

def modoMultiplicativo : String := "multiplicative"

/-- A calendar date (pandas `Timestamp`, at day granularity: the data in
this repository carries dates only). -/
structure Data where
  ano : Nat
  mes : Nat
  dia : Nat
deriving DecidableEq

/-- Gregorian leap year. -/
def bissexto (a : Nat) : Bool :=
  (a % 4 == 0 && a % 100 != 0) || a % 400 == 0

/-- Days in a month of the Gregorian calendar. -/
def diasNoMes (a m : Nat) : Nat :=
  if m == 2 then (if bissexto a then 29 else 28)
  else if m == 4 || m == 6 || m == 9 || m == 11 then 30
  else 31

/-- The next calendar day (one step of `pd.date_range` with the default
daily frequency). -/
def proximoDia (d : Data) : Data :=
  if d.dia < diasNoMes d.ano d.mes then ⟨d.ano, d.mes, d.dia + 1⟩
  else if d.mes < 12 then ⟨d.ano, d.mes + 1, 1⟩
  else ⟨d.ano + 1, 1, 1⟩

/-- Chronological comparison of dates (lexicographic on year, month, day). -/
def Data.le (a b : Data) : Bool :=
  a.ano < b.ano ||
    (a.ano == b.ano &&
      (a.mes < b.mes || (a.mes == b.mes && a.dia ≤ b.dia)))

/-- A cell of a pandas DataFrame as this repository uses them: a parsed
timestamp, a number, a string, or a missing value (None / NaN / NaT). -/
inductive Celula where
  | data (d : Data)
  | num (x : Rat)
  | texto (s : String)
  | nulo
deriving DecidableEq

/-- Split a character list on a separator character. -/
def separaEm (sep : Char) : List Char → List (List Char)
  | [] => [[]]
  | c :: resto =>
    let r := separaEm sep resto
    if c == sep then [] :: r
    else
      match r with
      | grupo :: gs => (c :: grupo) :: gs
      | [] => [[c]]

/-- Parse a nonempty list of decimal digits. -/
def parseNatDigitos (cs : List Char) : Option Nat :=
  if cs.isEmpty then none
  else
    cs.foldl
      (fun acc c =>
        match acc with
        | some n => if c.isDigit then some (n * 10 + (c.toNat - 48)) else none
        | none => none)
      (some 0)

def hifen : Char := '-'

/-- Parse an ISO `YYYY-MM-DD` date, the format of the repository's data
files; any other string fails, as `pd.to_datetime` raises on strings it
cannot interpret. -/
def parseData (s : String) : Option Data :=
  match (separaEm hifen s.toList).map parseNatDigitos with
  | [some a, some m, some d] =>
    if 1 ≤ m && m ≤ 12 && 1 ≤ d && d ≤ diasNoMes a m then some ⟨a, m, d⟩
    else none
  | _ => none

def menos : Char := '-'

/-- Parse an integer numeral (optional leading minus), the shape of the
numeric strings the repository's JSON payloads can carry. -/
def parseNumero (s : String) : Option Rat :=
  match s.toList with
  | c :: resto =>
    if c == menos then (parseNatDigitos resto).map (fun n => -(n : Rat))
    else (parseNatDigitos (c :: resto)).map (fun n => (n : Rat))
  | [] => none

/-- `pd.to_datetime` on one cell: timestamps pass through, strings are
parsed (failure raises, hence `none`), missing values become `NaT`.
Numeric epoch offsets never occur in this repository's data and are
modelled as a parse failure. -/
def toDatetimeCelula : Celula → Option Celula
  | Celula.data d => some (Celula.data d)
  | Celula.texto s => (parseData s).map Celula.data
  | Celula.nulo => some Celula.nulo
  | Celula.num _ => none

/-- `pd.to_numeric(errors=coerce)` on one cell: numbers pass through,
parseable strings become numbers, everything else becomes missing. -/
def toNumericoCoerce : Celula → Celula
  | Celula.num x => Celula.num x
  | Celula.texto s =>
    match parseNumero s with
    | some x => Celula.num x
    | none => Celula.nulo
  | Celula.data _ => Celula.nulo
  | Celula.nulo => Celula.nulo

/-- Whether a cell is of numeric kind (a number or NaN, which pandas
stores in a float column). -/
def celulaNumerica : Celula → Bool
  | Celula.num _ => true
  | Celula.nulo => true
  | _ => false

/-- Date ordering on cells, missing values (`NaT`) sorting last as
`sort_values` places them. -/
def celulaDataLe : Celula → Celula → Bool
  | Celula.data a, Celula.data b => Data.le a b
  | Celula.data _, _ => true
  | _, Celula.data _ => false
  | _, _ => true

/-- A pandas DataFrame: named columns and rows of cells (each row listing
one cell per column, in column order). -/
structure DataFrame where
  colunas : List String
  linhas : List (List Celula)
deriving DecidableEq

/-- `pd.DataFrame()`: the empty frame. -/
def DataFrame.vazio : DataFrame := ⟨[], []⟩

/-- The cell of a row under a named column (missing column or short row
reads as missing; the operations below only use it where the column
exists). -/
def obterCelula (colunas : List String) (linha : List Celula) (c : String) : Celula :=
  match colunas.findIdx? (fun n => n == c) with
  | some i => linha.getD i Celula.nulo
  | none => Celula.nulo

/-- `df[[c1, c2, ...]]`: project onto the named columns; raises `KeyError`
(`none`) when one is absent. -/
def selecionarColunas (df : DataFrame) (cols : List String) : Option DataFrame :=
  if cols.all (fun c => df.colunas.contains c) then
    some ⟨cols, df.linhas.map (fun r => cols.map (fun c => obterCelula df.colunas r c))⟩
  else none

/-- `df.rename(columns=dict(coluna_data to ds, coluna_valor to y))`.  When
the two keys coincide the Python dict literal collapses to the later
entry, exactly as modelled here. -/
def renomearParaProphet (df : DataFrame) (cd cv : String) : DataFrame :=
  ⟨df.colunas.map (fun c =>
      if cd == cv then (if c == cd then colY else c)
      else if c == cd then colDs else if c == cv then colY else c),
    df.linhas⟩

/-- `df.rename(columns=dict(antigo to novo))`. -/
def renomearColuna (df : DataFrame) (antigo novo : String) : DataFrame :=
  ⟨df.colunas.map (fun c => if c == antigo then novo else c), df.linhas⟩

/-- All-or-nothing traversal: `none` as soon as one element fails. -/
def traverseOption {α β : Type} (f : α → Option β) : List α → Option (List β)
  | [] => some []
  | x :: xs =>
    match f x, traverseOption f xs with
    | some y, some ys => some (y :: ys)
    | _, _ => none

/-- `df[c] = pd.to_datetime(df[c])`: all-or-nothing over the column —
one unparseable cell raises and fails the whole assignment, and a
missing column raises `KeyError`. -/
def toDatetimeCol (df : DataFrame) (c : String) : Option DataFrame :=
  match df.colunas.findIdx? (fun n => n == c) with
  | none => none
  | some i =>
    (traverseOption (fun r =>
        (toDatetimeCelula (r.getD i Celula.nulo)).map (fun v => r.set i v))
        df.linhas).map
      (fun ls => ⟨df.colunas, ls⟩)

/-- `df[c] = pd.to_numeric(df[c], errors=coerce)`: per-cell coercion,
never failing per cell; a missing column raises `KeyError`. -/
def toNumericCol (df : DataFrame) (c : String) : Option DataFrame :=
  match df.colunas.findIdx? (fun n => n == c) with
  | none => none
  | some i =>
    some ⟨df.colunas,
      df.linhas.map (fun r => r.set i (toNumericoCoerce (r.getD i Celula.nulo)))⟩

/-- `df.dropna(subset=...)`: keep the rows whose cells under every subset
column are present. -/
def dropna (df : DataFrame) (subset : List String) : DataFrame :=
  ⟨df.colunas,
    df.linhas.filter (fun r =>
      subset.all (fun c => !(obterCelula df.colunas r c == Celula.nulo)))⟩

/-- Stable insertion into a sorted list. -/
def insereOrdenado {α : Type} (le : α → α → Bool) (x : α) : List α → List α
  | [] => [x]
  | y :: ys => if le x y then x :: y :: ys else y :: insereOrdenado le x ys

/-- Stable sort by a boolean comparison (the embedding of
`df.sort_values`). -/
def ordenarPor {α : Type} (le : α → α → Bool) : List α → List α
  | [] => []
  | x :: xs => insereOrdenado le x (ordenarPor le xs)

/-- Whether a list is already sorted for a boolean comparison. -/
def ordenadoBool {α : Type} (le : α → α → Bool) : List α → Bool
  | [] => true
  | [_] => true
  | x :: y :: resto => le x y && ordenadoBool le (y :: resto)

/-- Row comparison under the date order of the named column. -/
def leLinhaPor (colunas : List String) (c : String) (r s : List Celula) : Bool :=
  celulaDataLe (obterCelula colunas r c) (obterCelula colunas s c)

/-- `df.sort_values(by=c)` for a date column. -/
def ordenarPorColuna (df : DataFrame) (c : String) : DataFrame :=
  ⟨df.colunas, ordenarPor (leLinhaPor df.colunas c) df.linhas⟩

/-- `PrevisorSeriesTemporal.preparar_dados` (previsao.py lines 53-90):
empty input short-circuits to an empty frame; otherwise select the two
columns into a copy, rename them to `ds`/`y`, parse the date column
(`pd.to_datetime`), drop rows with a missing `ds` or `y`, and sort by
`ds`.  Any exception inside the `try` (missing column, unparseable date)
is caught and yields an empty frame. -/
def preparar_dados (df : DataFrame) (coluna_data coluna_valor : String) : DataFrame :=
  if df.linhas.isEmpty then DataFrame.vazio
  else
    match selecionarColunas df [coluna_data, coluna_valor] with
    | none => DataFrame.vazio
    | some sel =>
      let dfp := renomearParaProphet sel coluna_data coluna_valor
      match toDatetimeCol dfp colDs with
      | none => DataFrame.vazio
      | some dfd =>
        ordenarPorColuna (dropna dfd [colDs, colY]) colDs

/-- The dates of the `ds` column of a prepared frame. -/
def colunaDatas (df : DataFrame) : List Data :=
  df.linhas.filterMap (fun r =>
    match obterCelula df.colunas r colDs with
    | Celula.data d => some d
    | _ => none)

/-- The `history_dates` the external Prophet model records at `fit` time:
the distinct `ds` values of the training frame, sorted ascending. -/
def historyDates (df : DataFrame) : List Data :=
  ordenarPor Data.le (colunaDatas df).dedup

/-- The opaque handle the external fit returns: it remembers the training
history dates (the only part of the fitted model the repository's code
path observes). -/
structure Ajuste where
  historico : List Data
deriving DecidableEq

/-- The value of `self.modelo` when it is not `None`: a Prophet object
that is either freshly constructed (fit not completed) or fitted. -/
inductive Modelo where
  | naoAjustado
  | ajustado (a : Ajuste)
deriving DecidableEq

/-- The `PrevisorSeriesTemporal` instance state (previsao.py lines
31-51): the configuration set at construction and the `modelo` slot,
`None` at construction. -/
structure PrevisorSeriesTemporal where
  tipo_modelo : String
  modelo : Option Modelo
  sazonalidade_anual : Bool
  sazonalidade_semanal : Bool
  sazonalidade_diaria : Bool
  modo_sazonalidade : String
  escala_prior_pontos_mudanca : Rat
deriving DecidableEq

/-- `PrevisorSeriesTemporal.__init__` with its default arguments. -/
def PrevisorSeriesTemporal.init : PrevisorSeriesTemporal :=
  ⟨tipoProphet, none, true, true, false, modoMultiplicativo, (1 : Rat) / 20⟩

/-- The outcome of `treinar`, tagging each distinct `return` path of the
source (the source returns a bare bool; the tags record which log
message accompanies each `return False`). -/
inductive TreinoResultado where
  | dadosInsuficientes
  | sucesso
  | tipoNaoSuportado
  | falhaAjuste
deriving DecidableEq

/-- The bool `treinar` actually returns for each tagged outcome. -/
def TreinoResultado.paraBool : TreinoResultado → Bool
  | TreinoResultado.sucesso => true
  | _ => false

/-- `PrevisorSeriesTemporal.treinar` (previsao.py lines 92-125).  The
external `Prophet.fit` may raise; `ajusteOk` is that external outcome.
Crucially, the source assigns `self.modelo = Prophet(...)` BEFORE
calling `fit`, so when `fit` raises the caught-exception path returns
`False` with `self.modelo` still holding the unfitted object. -/
def PrevisorSeriesTemporal.treinar (p : PrevisorSeriesTemporal) (df : DataFrame)
    (ajusteOk : Bool) : PrevisorSeriesTemporal × TreinoResultado :=
  if df.linhas.isEmpty || df.linhas.length < 2 then
    (p, TreinoResultado.dadosInsuficientes)
  else if p.tipo_modelo == tipoProphet then
    if ajusteOk then
      ({ p with modelo := some (Modelo.ajustado ⟨historyDates df⟩) },
        TreinoResultado.sucesso)
    else
      ({ p with modelo := some Modelo.naoAjustado }, TreinoResultado.falhaAjuste)
  else (p, TreinoResultado.tipoNaoSuportado)

/-- The list of the `periodos` days after `d`. -/
def diasApos (d : Data) : Nat → List Data
  | 0 => []
  | n + 1 => proximoDia d :: diasApos (proximoDia d) n

/-- The maximum of a list of dates (`history_dates.max()`). -/
def ultimaData (l : List Data) : Data :=
  l.foldl (fun a b => if Data.le a b then b else a) ⟨0, 1, 1⟩

/-- The external Prophet `make_future_dataframe`, exactly as the
repository calls it — `make_future_dataframe(periods=periodos)` with no
`freq` argument, hence the library DEFAULT frequency of one day: the
recorded history dates followed by `periods` consecutive DAYS after the
last history date (`include_history` defaults to true). -/
def make_future_dataframe (historico : List Data) (periodos : Nat) : List Data :=
  historico ++ diasApos (ultimaData historico) periodos

/-- One row of the forecast frame Prophet's `predict` returns, restricted
to the columns the repository reads: `ds`, `yhat`, `yhat_lower`,
`yhat_upper`. -/
abbrev PrevisaoLinha := Data × Rat × Rat × Rat

/-- The outcome of `prever`, tagging each distinct `return None` path of
the source (`modelo is None` check; unsupported model kind; the caught
exception raised when `make_future_dataframe` is called on an unfitted
model). -/
inductive PreverResultado where
  | modelNotTrained
  | tipoNaoSuportado
  | falhaPrevisao
  | ok (linhas : List PrevisaoLinha)
deriving DecidableEq

/-- `PrevisorSeriesTemporal.prever` (previsao.py lines 127-156).  The
numeric estimates are produced by the external fitted model; `estimar`
is that external capability.  An unfitted `modelo` (non-`None` but never
successfully fitted) makes `make_future_dataframe` raise inside the
`try`, which the source catches and turns into the generic error
return, NOT the ModelNotTrained path. -/
def PrevisorSeriesTemporal.prever (p : PrevisorSeriesTemporal) (periodos : Nat)
    (estimar : Data → Rat × Rat × Rat) : PreverResultado :=
  match p.modelo with
  | none => PreverResultado.modelNotTrained
  | some m =>
    if p.tipo_modelo == tipoProphet then
      match m with
      | Modelo.naoAjustado => PreverResultado.falhaPrevisao
      | Modelo.ajustado a =>
        PreverResultado.ok
          ((make_future_dataframe a.historico periodos).map (fun d => (d, estimar d)))
    else PreverResultado.tipoNaoSuportado

/-- Rows-of-dicts input as the JSON files provide it: each record maps
field names to cells. -/
abbrev Registro := List (String × Celula)

/-- The columns of `pd.DataFrame(list_of_dicts)`: union of the record
keys, ordered by first appearance. -/
def colunasDeRegistros (dados : List Registro) : List String :=
  dados.foldl (fun acc reg => reg.foldl (fun a kv =>
    if a.contains kv.fst then a else a ++ [kv.fst]) acc) []

/-- The value of a record under a key, missing keys giving NaN. -/
def valorDeRegistro (reg : Registro) (c : String) : Celula :=
  match reg.find? (fun kv => kv.fst == c) with
  | some kv => kv.snd
  | none => Celula.nulo

/-- `pd.DataFrame(dados)` on a list of dicts. -/
def dataFrameDeRegistros (dados : List Registro) : DataFrame :=
  let cols := colunasDeRegistros dados
  ⟨cols, dados.map (fun reg => cols.map (fun c => valorDeRegistro reg c))⟩

/-- The body of the `try` block shared by `processar_dados_deficit` and
`processar_dados_iof` (previsao.py lines 228-245 and 262-279): build the
frame, parse `data`, coerce `valor` to numeric, drop rows with missing
`valor`, sort by `data`, and rename `valor` to the indicator's own
label.  `none` is the raised-exception path (missing column or
unparseable date), which the source catches, returning an empty frame. -/
def processarDadosIndicador (dados : List Registro) (novoNome : String) :
    Option DataFrame :=
  let df := dataFrameDeRegistros dados
  match toDatetimeCol df colData with
  | none => none
  | some df1 =>
    match toNumericCol df1 colValor with
    | none => none
    | some df2 =>
      let df3 := dropna df2 [colValor]
      let df4 := ordenarPorColuna df3 colData
      some (renomearColuna df4 colValor novoNome)

/-- `processar_dados_deficit` (previsao.py lines 218-249). -/
def processar_dados_deficit (dados : List Registro) : DataFrame :=
  (processarDadosIndicador dados colDeficit).getD DataFrame.vazio

/-- `processar_dados_iof` (previsao.py lines 252-283). -/
def processar_dados_iof (dados : List Registro) : DataFrame :=
  (processarDadosIndicador dados colIof).getD DataFrame.vazio

/-- `pd.api.types.is_numeric_dtype(df[c])`: a column is of numeric dtype
exactly when every entry is a number or NaN. -/
def colunaNumerica (df : DataFrame) (c : String) : Bool :=
  df.linhas.all (fun r => celulaNumerica (obterCelula df.colunas r c))

/-- Rule 4 of the resolution: the first numeric-typed column that is not
one of the reserved axis columns `data`/`ano` (the list-comprehension
fallback of dashboard.py lines 291-294). -/
def primeiraColunaNumerica (df : DataFrame) : Option String :=
  match df.colunas.filter (fun c =>
      !(c == colData) && !(c == colAno) && colunaNumerica df c) with
  | [] => none
  | c :: _ => some c

/-- The value-column resolution of the dashboard's forecast flow
(dashboard.py lines 280-297): the configured hint when truthy and
present as a column, else the literal `valor` column, else `deficit`,
else `iof`, else the first numeric column that is not `data` or `ano`;
`none` when nothing matches (the `st.error` branch). -/
def resolveValueColumn (df : DataFrame) (hint : Option String) : Option String :=
  let aposHint : Option String :=
    if df.colunas.contains colValor then some colValor
    else if df.colunas.contains colDeficit then some colDeficit
    else if df.colunas.contains colIof then some colIof
    else primeiraColunaNumerica df
  match hint with
  | some h => if h.length != 0 && df.colunas.contains h then some h else aposHint
  | none => aposHint

/-- First-match-wins over a list of optional rule results. -/
def primeiraCorrespondencia : List (Option String) → Option String
  | [] => none
  | some x :: _ => some x
  | none :: resto => primeiraCorrespondencia resto

/-- Specification-side restatement of the resolver: the precedence
written as an explicit first-match-wins rule list — (1) the configured
hint when present (non-empty) and present as a column; (2) the column
literally named `valor`; (3) the indicator-specific labels `deficit`
then `iof`, in that fixed order; (4) the first numeric-typed column
outside the reserved axis columns `data` and `ano`; (5) otherwise no
match.  Stated to be compared with `resolveValueColumn` above. -/
def resolveValueColumnSpec (df : DataFrame) (hint : Option String) : Option String :=
  primeiraCorrespondencia
    [match hint with
     | some h => if h.length != 0 && df.colunas.contains h then some h else none
     | none => none,
     if df.colunas.contains colValor then some colValor else none,
     if df.colunas.contains colDeficit then some colDeficit else none,
     if df.colunas.contains colIof then some colIof else none,
     primeiraColunaNumerica df]

/-- A decimal digit character. -/
def digitoChar (n : Nat) : Char := Char.ofNat (48 + n % 10)

/-- Two-digit zero-padded numeral (the `%d` / `%m` of `strftime`). -/
def doisDigitos (n : Nat) : String :=
  String.mk [digitoChar (n / 10), digitoChar n]

/-- Four-digit zero-padded numeral (the `%Y` of `strftime`). -/
def quatroDigitos (n : Nat) : String :=
  String.mk [digitoChar (n / 1000), digitoChar (n / 100), digitoChar (n / 10), digitoChar n]

def barra : String := "/"

/-- `strftime` with the dashboard's display format `%d/%m/%Y`. -/
def formatarData (d : Data) : String :=
  doisDigitos d.dia ++ barra ++ doisDigitos d.mes ++ barra ++ quatroDigitos d.ano

/-- Lexicographic greater-or-equal on character lists by code point —
exactly the comparison Python applies to strings. -/
def lexGeChars : List Char → List Char → Bool
  | _, [] => true
  | [], _ :: _ => false
  | a :: as, b :: bs =>
    if b.val < a.val then true
    else if a.val < b.val then false
    else lexGeChars as bs

/-- Python string `>=`. -/
def strGe (a b : String) : Bool := lexGeChars a.toList b.toList

/-- One displayed forecast-table row: the `%d/%m/%Y`-formatted date and
the three estimates. -/
abbrev LinhaExibicao := String × Rat × Rat × Rat

/-- The forecast-table display path (dashboard.py lines 332-353): take
the four columns, format the date column as `%d/%m/%Y` strings, and keep
the rows whose formatted string compares `>=` (string comparison) with
today's formatted string. -/
def exibirTabelaFutura (previsao : List PrevisaoLinha) (hoje : Data) :
    List LinhaExibicao :=
  let df_exibir := previsao.map (fun l =>
    (formatarData l.fst, l.snd.fst, l.snd.snd.fst, l.snd.snd.snd))
  df_exibir.filter (fun l => strGe l.fst (formatarData hoje))

/-- The user-visible events of the `Gerar Previsão` branch of
`main` and the section that follows it. -/
inductive Evento where
  | avisoColunaNaoEncontrada
  | erroTreino
  | erroPrevisao
  | graficoPrevisao
  | graficoComponentes
  | tabelaPrevisao (linhas : List LinhaExibicao)
  | secaoComparativo
deriving DecidableEq

/-- The `Gerar Previsão` flow of `main` (dashboard.py lines 275-367):
resolve the value column (no match emits the `st.error` warning and
skips the forecast), otherwise prepare, train (failure emits its own
error), predict (failure likewise), and on success show the two charts
and the future-filtered table; in every case `main` then continues to
the comparativo section — no branch aborts the render. -/
def fluxoGerarPrevisao (df : DataFrame) (hint : Option String)
    (previsor : PrevisorSeriesTemporal) (periodos : Nat) (ajusteOk : Bool)
    (estimar : Data → Rat × Rat × Rat) (hoje : Data) : List Evento :=
  (match resolveValueColumn df hint with
   | none => [Evento.avisoColunaNaoEncontrada]
   | some cv =>
     let dfPrep := preparar_dados df colData cv
     match previsor.treinar dfPrep ajusteOk with
     | (p1, TreinoResultado.sucesso) =>
       match p1.prever periodos estimar with
       | PreverResultado.ok linhas =>
         [Evento.graficoPrevisao, Evento.graficoComponentes,
           Evento.tabelaPrevisao (exibirTabelaFutura linhas hoje)]
       | _ => [Evento.erroPrevisao]
     | _ => [Evento.erroTreino]) ++ [Evento.secaoComparativo]

/-- A heap of DataFrame objects: Python-level object identity, used to
state that `preparar_dados` never mutates its argument. -/
abbrev Heap := List DataFrame

/-- Dereference a heap cell. -/
def Heap.obter (h : Heap) (r : Nat) : DataFrame := h.getD r DataFrame.vazio

/-- `preparar_dados` with explicit object identity (previsao.py lines
69-86): `df[[...]].copy()` allocates a fresh object; the
`rename(inplace=True)` and the `ds` column assignment mutate THAT copy
in place; `dropna` and `sort_values` allocate fresh results.  The input
reference `r` is never written. -/
def preparar_dadosHeap (h : Heap) (r : Nat) (cd cv : String) : Heap × Option Nat :=
  let df := Heap.obter h r
  if df.linhas.isEmpty then (h ++ [DataFrame.vazio], some h.length)
  else
    match selecionarColunas df [cd, cv] with
    | none => (h ++ [DataFrame.vazio], some h.length)
    | some sel =>
      let h1 := h ++ [sel]
      let r1 := h.length
      let h2 := h1.set r1 (renomearParaProphet (Heap.obter h1 r1) cd cv)
      match toDatetimeCol (Heap.obter h2 r1) colDs with
      | none => (h2 ++ [DataFrame.vazio], some h2.length)
      | some dfd =>
        let h3 := h2.set r1 dfd
        let df4 := dropna (Heap.obter h3 r1) [colDs, colY]
        let h4 := h3 ++ [df4]
        let h5 := h4 ++ [ordenarPorColuna df4 colDs]
        (h5, some h4.length)

/-- Whether a row has the canonical two-cell shape: a parsed timestamp
and a numeric value. -/
def linhaCanonica : List Celula → Bool
  | [Celula.data _, Celula.num _] => true
  | _ => false

/-- Whether a frame is already a canonical series: columns `ds`/`y`,
every row a (timestamp, number) pair, rows ascending by timestamp. -/
def canonico (df : DataFrame) : Bool :=
  df.colunas == [colDs, colY] && df.linhas.all linhaCanonica &&
    ordenadoBool (leLinhaPor [colDs, colY] colDs) df.linhas

/-- A trivial instance of the external estimation capability, used where
a concrete one is needed. -/
def estimadorZero : Data → Rat × Rat × Rat := fun _ => (0, 0, 0)

/-- A prepared two-row frame (the minimum `treinar` accepts). -/
def dfPreparadoDois : DataFrame :=
  ⟨[colDs, colY],
    [[Celula.data ⟨2023, 1, 1⟩, Celula.num 10],
     [Celula.data ⟨2023, 2, 1⟩, Celula.num 12]]⟩

/-- A prepared one-row frame (insufficient for `treinar`). -/
def dfPreparadoUm : DataFrame :=
  ⟨[colDs, colY], [[Celula.data ⟨2023, 1, 1⟩, Celula.num 10]]⟩

/-- The spec's malformed-date scenario: one `not-a-date` row mixed with
three valid rows. -/
def dfComDataInvalida : DataFrame :=
  ⟨[colData, colValor],
    [[Celula.texto ("2023-01-01"), Celula.num 10],
     [Celula.texto ("not-a-date"), Celula.num 5],
     [Celula.texto ("2023-02-01"), Celula.num 12],
     [Celula.texto ("2023-03-01"), Celula.num 9]]⟩

/-- A frame whose value column holds a non-coercible string. -/
def dfComValorTexto : DataFrame :=
  ⟨[colData, colValor],
    [[Celula.texto ("2023-01-01"), Celula.texto ("abc")]]⟩

/-- The spec's resolver example: columns `valor`, `iof`, `data`. -/
def dfValorIofData : DataFrame :=
  ⟨[colValor, colIof, colData],
    [[Celula.num 10, Celula.num 3, Celula.data ⟨2023, 1, 1⟩]]⟩

/-- A frame with no resolvable value column: only the reserved axis
column and a text column. -/
def dfSemCorrespondencia : DataFrame :=
  ⟨[colData, colAno],
    [[Celula.data ⟨2023, 1, 1⟩, Celula.data ⟨2023, 1, 1⟩]]⟩

/-- A monthly-cadence training history. -/
def historicoMensal : List Data := [⟨2023, 1, 1⟩, ⟨2023, 2, 1⟩, ⟨2023, 3, 1⟩]

/-- The prepared monthly frame behind `historicoMensal`. -/
def dfMensalPreparado : DataFrame :=
  ⟨[colDs, colY],
    [[Celula.data ⟨2023, 1, 1⟩, Celula.num 10],
     [Celula.data ⟨2023, 2, 1⟩, Celula.num 12],
     [Celula.data ⟨2023, 3, 1⟩, Celula.num 9]]⟩

/-- The engine after a successful `treinar` on the monthly frame. -/
def previsorTreinadoMensal : PrevisorSeriesTemporal :=
  (PrevisorSeriesTemporal.init.treinar dfMensalPreparado true).fst

/-- A forecast result holding one clearly past row and one clearly
future row relative to `hojeExemplo`. -/
def previsaoPassadoFuturo : List PrevisaoLinha :=
  [(⟨2020, 1, 15⟩, 7, 6, 8), (⟨2026, 11, 5⟩, 9, 8, 10)]

/-- A concrete `today` for the table-filter scenario. -/
def hojeExemplo : Data := ⟨2026, 10, 12⟩

/-- A canonical three-row series. -/
def dfCanonicoExemplo : DataFrame :=
  ⟨[colDs, colY],
    [[Celula.data ⟨2023, 1, 1⟩, Celula.num 10],
     [Celula.data ⟨2023, 2, 1⟩, Celula.num 12],
     [Celula.data ⟨2023, 3, 1⟩, Celula.num 9]]⟩

/-- A raw indicator payload that processes without error. -/
def dadosIndicadorExemplo : List Registro :=
  [[(colData, Celula.texto ("2023-01-01")), (colValor, Celula.num 10)],
   [(colData, Celula.texto ("2023-02-01")), (colValor, Celula.num 12)]]

/-- A one-object heap for the mutation claim. -/
def heapExemplo : Heap :=
  [⟨[colData, colValor],
    [[Celula.texto ("2023-02-01"), Celula.num 12],
     [Celula.texto ("2023-01-01"), Celula.num 10]]⟩]

/-- The frame `processar_dados_deficit` produces on
`dadosIndicadorExemplo`. -/
def dfDeficitProcessado : DataFrame :=
  ⟨[colData, colDeficit],
    [[Celula.data ⟨2023, 1, 1⟩, Celula.num 10],
     [Celula.data ⟨2023, 2, 1⟩, Celula.num 12]]⟩

/-!  ## Helper lemmas  -/

theorem mem_insereOrdenado {α : Type} (le : α → α → Bool) (x a : α) (l : List α) :
    a ∈ insereOrdenado le x l ↔ a = x ∨ a ∈ l := by
  induction l with
  | nil => simp [insereOrdenado]
  | cons y ys ih =>
    unfold insereOrdenado
    split
    · simp
    · simp only [List.mem_cons, ih]
      tauto

theorem mem_ordenarPor {α : Type} (le : α → α → Bool) (a : α) (l : List α) :
    a ∈ ordenarPor le l ↔ a ∈ l := by
  induction l with
  | nil => simp [ordenarPor]
  | cons x xs ih => simp [ordenarPor, mem_insereOrdenado, ih]

theorem ordenarPor_eq_self {α : Type} (le : α → α → Bool) (l : List α)
    (h : ordenadoBool le l = true) : ordenarPor le l = l := by
  induction l with
  | nil => rfl
  | cons x xs ih =>
    cases xs with
    | nil => rfl
    | cons y ys =>
      have h1 : le x y = true := by
        simp [ordenadoBool] at h
        exact h.1
      have h2 : ordenadoBool le (y :: ys) = true := by
        simp [ordenadoBool] at h ⊢
        exact h.2
      show insereOrdenado le x (ordenarPor le (y :: ys)) = x :: y :: ys
      rw [ih h2]
      simp [insereOrdenado, h1]

theorem traverseOption_mem {α β : Type} (f : α → Option β) (l : List α)
    (l' : List β) (h : traverseOption f l = some l') :
    ∀ y ∈ l', ∃ x ∈ l, f x = some y := by
  induction l generalizing l' with
  | nil =>
    simp [traverseOption] at h
    subst h
    simp
  | cons x xs ih =>
    simp only [traverseOption] at h
    cases hx : f x with
    | none => rw [hx] at h; simp at h
    | some y0 =>
      rw [hx] at h
      cases hxs : traverseOption f xs with
      | none => rw [hxs] at h; simp at h
      | some ys =>
        rw [hxs] at h
        simp at h
        subst h
        intro y hy
        cases hy with
        | head => exact ⟨x, List.mem_cons_self x xs, hx⟩
        | tail _ htl =>
          obtain ⟨x0, hx0, hfx0⟩ := ih ys hxs y htl
          exact ⟨x0, List.mem_cons_of_mem x hx0, hfx0⟩

theorem traverseOption_id {α : Type} (f : α → Option α) (l : List α)
    (h : ∀ x ∈ l, f x = some x) : traverseOption f l = some l := by
  induction l with
  | nil => rfl
  | cons x xs ih =>
    simp only [traverseOption]
    rw [h x (List.mem_cons_self x xs), ih (fun z hz => h z (List.mem_cons_of_mem x hz))]

theorem map_id_de_mem {α : Type} (f : α → α) (l : List α)
    (h : ∀ x ∈ l, f x = x) : l.map f = l := by
  induction l with
  | nil => rfl
  | cons x xs ih =>
    simp only [List.map_cons]
    rw [h x (List.mem_cons_self x xs), ih (fun z hz => h z (List.mem_cons_of_mem x hz))]

theorem toDatetimeCelula_forma (c v : Celula) (h : toDatetimeCelula c = some v) :
    (∃ d, v = Celula.data d) ∨ v = Celula.nulo := by
  cases c with
  | data d =>
    simp [toDatetimeCelula] at h
    exact Or.inl ⟨d, h.symm⟩
  | num x => simp [toDatetimeCelula] at h
  | texto s =>
    simp [toDatetimeCelula] at h
    obtain ⟨d, _, hd⟩ := h
    exact Or.inl ⟨d, hd.symm⟩
  | nulo =>
    simp [toDatetimeCelula] at h
    exact Or.inr h.symm

theorem obterCelula_ds (a b : Celula) :
    obterCelula [colDs, colY] [a, b] colDs = a := rfl

theorem obterCelula_y (a b : Celula) :
    obterCelula [colDs, colY] [a, b] colY = b := rfl

theorem findIdx?_some_existe {α : Type} (p : α → Bool) (l : List α) (i s : Nat)
    (h : List.findIdx? p l s = some i) : ∃ x ∈ l, p x = true := by
  induction l generalizing s with
  | nil => simp [List.findIdx?] at h
  | cons x xs ih =>
    rw [List.findIdx?_cons] at h
    by_cases hp : p x = true
    · exact ⟨x, List.mem_cons_self x xs, hp⟩
    · rw [if_neg hp] at h
      obtain ⟨z, hz, hpz⟩ := ih (s + 1) h
      exact ⟨z, List.mem_cons_of_mem x hz, hpz⟩

theorem Heap.obter_append (h l : Heap) (r : Nat) (hr : r < h.length) :
    Heap.obter (h ++ l) r = Heap.obter h r := by
  unfold Heap.obter
  exact List.getD_append h l DataFrame.vazio r hr

theorem Heap.obter_set_ne (h : Heap) (i r : Nat) (df : DataFrame) (hne : i ≠ r) :
    Heap.obter (h.set i df) r = Heap.obter h r := by
  unfold Heap.obter
  unfold List.getD
  rw [List.get?_eq_getElem?, List.get?_eq_getElem?, List.getElem?_set_ne hne]

/-!  ## Claim theorems  -/

/-- Claim C1 (code bug, demonstrated at the failing input): `treinar`
assigns `self.modelo = Prophet(...)` before calling `fit`, so when the
underlying fit raises, the training failure leaves `modelo` non-`None`
(holding the unfitted object); the subsequent `prever` therefore skips
the `Modelo não treinado` (ModelNotTrained) check and fails in the
generic caught-exception path instead — contradicting the claim that
after any training failure every predict fails with ModelNotTrained. -/
theorem C1_falha_ajuste_contorna_ModelNotTrained :
    (PrevisorSeriesTemporal.init.treinar dfPreparadoDois false).snd =
        TreinoResultado.falhaAjuste ∧
      (PrevisorSeriesTemporal.init.treinar dfPreparadoDois false).fst.modelo =
        some Modelo.naoAjustado ∧
      (PrevisorSeriesTemporal.init.treinar dfPreparadoDois false).fst.prever 12
          estimadorZero =
        PreverResultado.falhaPrevisao ∧
      PreverResultado.falhaPrevisao ≠ PreverResultado.modelNotTrained := by
  refine ⟨by decide, by decide, by decide, by decide⟩

/-- Claim C2 (counterexample): on the spec's own scenario — one
`not-a-date` row mixed with three valid rows — `preparar_dados` returns
the EMPTY frame (the un-coerced `pd.to_datetime` raises on the malformed
row and the caught exception discards everything), not the claimed
3-row series. -/
theorem C2_contraexemplo :
    preparar_dados dfComDataInvalida colData colValor = DataFrame.vazio ∧
      (preparar_dados dfComDataInvalida colData colValor).linhas.length ≠ 3 := by
  refine ⟨by decide, by decide⟩

/-- Claim C2 (amended): a date-parse failure is not handled per row: when
the input is nonempty, the two columns exist, and the date conversion of
the renamed copy fails on any row, `preparar_dados` returns the empty
frame — the whole operation yields an empty result (the exception is
caught, so no error escapes), rather than dropping just the bad row. -/
theorem C2_falha_de_parse_esvazia_tudo (df : DataFrame) (cd cv : String)
    (sel : DataFrame) (h1 : df.linhas ≠ [])
    (h2 : selecionarColunas df [cd, cv] = some sel)
    (h3 : toDatetimeCol (renomearParaProphet sel cd cv) colDs = none) :
    preparar_dados df cd cv = DataFrame.vazio := by
  unfold preparar_dados
  rw [if_neg (by simp [List.isEmpty_eq_false.mpr h1]), h2]
  simp only []
  rw [h3]

/-- Claim C2 (witness for the amended theorem). -/
theorem C2_falha_de_parse_esvazia_tudo_witness :
    dfComDataInvalida.linhas ≠ [] ∧
      preparar_dados dfComDataInvalida colData colValor = DataFrame.vazio :=
  ⟨by decide,
    C2_falha_de_parse_esvazia_tudo dfComDataInvalida colData colValor
      dfComDataInvalida (by decide) (by decide) (by decide)⟩

/-- Claim C3 (code bug, demonstrated at the failing input): `prever`
calls `make_future_dataframe(periods=periodos)` with no `freq`, so the
horizon is extended at the library's DEFAULT daily frequency regardless
of the native cadence of the training data: trained on the monthly
series Jan/Feb/Mar 2023, `prever(2)` does return `len(history) + 2 = 5`
ascending rows, but the two future timestamps are 2023-03-02 and
2023-03-03 — consecutive DAYS — not the native monthly cadence
(2023-04-01, 2023-05-01) the claim requires (and the UI labels the
horizon "meses"). -/
theorem C3_extensao_diaria_nao_cadencia_nativa :
    previsorTreinadoMensal.prever 2 estimadorZero =
        PreverResultado.ok
          [(⟨2023, 1, 1⟩, 0, 0, 0), (⟨2023, 2, 1⟩, 0, 0, 0),
            (⟨2023, 3, 1⟩, 0, 0, 0), (⟨2023, 3, 2⟩, 0, 0, 0),
            (⟨2023, 3, 3⟩, 0, 0, 0)] ∧
      make_future_dataframe historicoMensal 2 ≠
        historicoMensal ++ [⟨2023, 4, 1⟩, ⟨2023, 5, 1⟩] := by
  refine ⟨by decide, by decide⟩

/-- Claim C4 (code bug, demonstrated at the failing input): the forecast
table filter compares `%d/%m/%Y`-formatted STRINGS lexicographically
(`df_exibir["Data"] >= hoje`), which orders by day-of-month first: with
today = 2026-10-12, the chronologically past row 2020-01-15 is KEPT
("15/01/2020" >= "12/10/2026" as strings) while the chronologically
future row 2026-11-05 is DROPPED ("05/11/2026" < "12/10/2026" as
strings) — so the table does not contain exactly the future-dated
rows. -/
theorem C4_filtro_tabela_lexicografico :
    Data.le hojeExemplo ⟨2020, 1, 15⟩ = false ∧
      Data.le hojeExemplo ⟨2026, 11, 5⟩ = true ∧
      exibirTabelaFutura previsaoPassadoFuturo hojeExemplo =
        [("15/01/2020", 7, 6, 8)] := by
  refine ⟨by decide, by decide, by decide⟩

/-- Claim C5 (counterexample): `preparar_dados` performs NO numeric
coercion of the value column: a row whose value is the non-coercible
string `abc` is returned as-is (its cell is not numeric), instead of
being treated as missing and dropped as the claim states. -/
theorem C5_contraexemplo :
    (preparar_dados dfComValorTexto colData colValor).linhas =
        [[Celula.data ⟨2023, 1, 1⟩, Celula.texto ("abc")]] ∧
      celulaNumerica (Celula.texto ("abc")) = false := by
  refine ⟨by decide, by decide⟩

/-- Claim C7: `treinar` on a series with fewer than 2 rows always takes
the `Dados insuficientes` early return — the InsufficientData outcome —
leaving the instance unchanged; no exception can escape (the guard runs
before the `try` block). -/
theorem C7_dados_insuficientes (p : PrevisorSeriesTemporal) (df : DataFrame)
    (ajusteOk : Bool) (h : df.linhas.length < 2) :
    p.treinar df ajusteOk = (p, TreinoResultado.dadosInsuficientes) := by
  unfold PrevisorSeriesTemporal.treinar
  rw [if_pos]
  simp [h]

/-- Claim C7 (witness): the one-row prepared frame. -/
theorem C7_dados_insuficientes_witness :
    dfPreparadoUm.linhas.length < 2 ∧
      PrevisorSeriesTemporal.init.treinar dfPreparadoUm true =
        (PrevisorSeriesTemporal.init, TreinoResultado.dadosInsuficientes) :=
  ⟨by decide, C7_dados_insuficientes PrevisorSeriesTemporal.init dfPreparadoUm true (by decide)⟩

/-- Claim C6: the value-column resolution follows exactly the spec's
first-match-wins precedence (hint, then the literal `valor`, then the
indicator labels `deficit`/`iof` in fixed order, then the first numeric
non-reserved column, else no match); in particular columns
`valor`/`iof`/`data` with no hint resolve to `valor`; and when nothing
matches the forecast flow emits the visible warning and still renders
the following section instead of aborting. -/
theorem C6_precedencia_resolver :
    (∀ df hint, resolveValueColumn df hint = resolveValueColumnSpec df hint) ∧
      resolveValueColumn dfValorIofData none = some colValor ∧
      (∀ df hint previsor periodos ajusteOk estimar hoje,
        resolveValueColumn df hint = none →
        fluxoGerarPrevisao df hint previsor periodos ajusteOk estimar hoje =
          [Evento.avisoColunaNaoEncontrada, Evento.secaoComparativo]) := by
  refine ⟨?_, by decide, ?_⟩
  · intro df hint
    unfold resolveValueColumn resolveValueColumnSpec
    cases hint with
    | none =>
      by_cases h1 : colValor ∈ df.colunas <;>
        by_cases h2 : colDeficit ∈ df.colunas <;>
          by_cases h3 : colIof ∈ df.colunas <;>
            simp [h1, h2, h3, primeiraCorrespondencia] <;>
              (cases hz : primeiraColunaNumerica df <;> simp [primeiraCorrespondencia])
    | some h =>
      by_cases h0 : ¬h.length = 0 ∧ h ∈ df.colunas
      · simp [h0, primeiraCorrespondencia]
      · by_cases h1 : colValor ∈ df.colunas <;>
          by_cases h2 : colDeficit ∈ df.colunas <;>
            by_cases h3 : colIof ∈ df.colunas <;>
              simp [h0, h1, h2, h3, primeiraCorrespondencia] <;>
                (cases hz : primeiraColunaNumerica df <;> simp [primeiraCorrespondencia])
  · intro df hint previsor periodos ajusteOk estimar hoje h
    unfold fluxoGerarPrevisao
    rw [h]
    rfl

/-- Claim C6 (witness): a frame with only reserved/non-numeric columns
resolves to nothing and the flow warns without aborting. -/
theorem C6_precedencia_resolver_witness :
    resolveValueColumn dfSemCorrespondencia none = none ∧
      fluxoGerarPrevisao dfSemCorrespondencia none PrevisorSeriesTemporal.init 12
          true estimadorZero hojeExemplo =
        [Evento.avisoColunaNaoEncontrada, Evento.secaoComparativo] :=
  ⟨by decide,
    C6_precedencia_resolver.2.2 dfSemCorrespondencia none
      PrevisorSeriesTemporal.init 12 true estimadorZero hojeExemplo (by decide)⟩

/-- Claim C9: `preparar_dados` never mutates its argument.  In the heap
embedding the only in-place operations (`rename(inplace=True)` and the
`ds` column assignment) write to the object freshly allocated by
`df[[...]].copy()`, never to the caller's reference, so the caller's
frame is unchanged whatever branch is taken. -/
theorem C9_preparar_dados_nao_muta (h : Heap) (r : Nat) (cd cv : String)
    (hr : r < h.length) :
    Heap.obter (preparar_dadosHeap h r cd cv).fst r = Heap.obter h r := by
  have hne : h.length ≠ r := Nat.ne_of_gt hr
  unfold preparar_dadosHeap
  dsimp only
  split
  · exact Heap.obter_append h _ r hr
  · split
    · exact Heap.obter_append h _ r hr
    · split
      · rw [Heap.obter_append _ _ r
            (by simp only [List.length_set, List.length_append]; omega),
          Heap.obter_set_ne _ _ _ _ hne, Heap.obter_append h _ r hr]
      · rw [Heap.obter_append _ _ r
            (by simp only [List.length_set, List.length_append]; omega),
          Heap.obter_append _ _ r
            (by simp only [List.length_set, List.length_append]; omega),
          Heap.obter_set_ne _ _ _ _ hne, Heap.obter_set_ne _ _ _ _ hne,
          Heap.obter_append h _ r hr]

/-- Claim C9 (witness). -/
theorem C9_preparar_dados_nao_muta_witness :
    (0 : Nat) < heapExemplo.length ∧
      Heap.obter (preparar_dadosHeap heapExemplo 0 colData colValor).fst 0 =
        Heap.obter heapExemplo 0 :=
  ⟨by decide, C9_preparar_dados_nao_muta heapExemplo 0 colData colValor (by decide)⟩

/-- Renaming `valor` away leaves no `valor` column and introduces the
new name, for any frame whose columns contain `valor`. -/
theorem processar_sem_valor (novoNome : String) (hne : novoNome ≠ colValor)
    (dados : List Registro) (df : DataFrame)
    (h : processarDadosIndicador dados novoNome = some df) :
    colValor ∉ df.colunas ∧ novoNome ∈ df.colunas := by
  unfold processarDadosIndicador at h
  dsimp only at h
  cases h1 : toDatetimeCol (dataFrameDeRegistros dados) colData with
  | none => rw [h1] at h; simp at h
  | some df1 =>
    rw [h1] at h
    dsimp only at h
    cases h2 : toNumericCol df1 colValor with
    | none => rw [h2] at h; simp at h
    | some df2 =>
      rw [h2] at h
      dsimp only at h
      simp only [Option.some_inj] at h
      have hdf : df =
          renomearColuna (ordenarPorColuna (dropna df2 [colValor]) colData)
            colValor novoNome := h.symm
      have hc2 : df2.colunas = df1.colunas := by
        unfold toNumericCol at h2
        cases hf : df1.colunas.findIdx? (fun n => n == colValor) with
        | none => rw [hf] at h2; simp at h2
        | some i =>
          rw [hf] at h2
          simp only [Option.some_inj] at h2
          rw [← h2]
      have hvalor1 : colValor ∈ df1.colunas := by
        unfold toNumericCol at h2
        cases hf : df1.colunas.findIdx? (fun n => n == colValor) with
        | none => rw [hf] at h2; simp at h2
        | some i =>
          obtain ⟨x, hx, hbx⟩ := findIdx?_some_existe _ _ i 0 hf
          rw [beq_iff_eq] at hbx
          rw [← hbx]
          exact hx
      have hcolsdf : df.colunas =
          df2.colunas.map (fun c => if c == colValor then novoNome else c) := by
        rw [hdf]
        rfl
      constructor
      · intro hmem
        rw [hcolsdf] at hmem
        obtain ⟨c, _, hfc⟩ := List.mem_map.mp hmem
        by_cases hcv : c = colValor
        · rw [hcv] at hfc
          simp at hfc
          exact hne hfc
        · rw [if_neg (by simp [hcv])] at hfc
          exact hcv hfc
      · rw [hcolsdf, hc2]
        exact List.mem_map.mpr ⟨colValor, hvalor1, by simp⟩

/-- Claim C10: every non-exceptional result of `processar_dados_deficit`
(resp. `processar_dados_iof`) has its value column renamed to `deficit`
(resp. `iof`) and contains no column named `valor` — so the `valor`
precedence rule can never select the value column of these indicators. -/
theorem C10_indicadores_renomeiam_valor :
    (∀ dados df, processarDadosIndicador dados colDeficit = some df →
        colValor ∉ df.colunas ∧ colDeficit ∈ df.colunas) ∧
      (∀ dados df, processarDadosIndicador dados colIof = some df →
        colValor ∉ df.colunas ∧ colIof ∈ df.colunas) :=
  ⟨fun dados df h => processar_sem_valor colDeficit (by decide) dados df h,
    fun dados df h => processar_sem_valor colIof (by decide) dados df h⟩

/-- Claim C10 (witness). -/
theorem C10_indicadores_renomeiam_valor_witness :
    processarDadosIndicador dadosIndicadorExemplo colDeficit =
        some dfDeficitProcessado ∧
      (colValor ∉ dfDeficitProcessado.colunas ∧
        colDeficit ∈ dfDeficitProcessado.colunas) :=
  ⟨by decide,
    C10_indicadores_renomeiam_valor.1 dadosIndicadorExemplo dfDeficitProcessado
      (by decide)⟩

theorem proj_linha_canonica (r : List Celula) (h : linhaCanonica r = true) :
    List.map (fun c => obterCelula [colDs, colY] r c) [colDs, colY] = r := by
  unfold linhaCanonica at h
  split at h
  · rfl
  · simp at h

theorem datetime_linha_canonica (r : List Celula) (h : linhaCanonica r = true) :
    (toDatetimeCelula (r.getD 0 Celula.nulo)).map (fun v => r.set 0 v) = some r := by
  unfold linhaCanonica at h
  split at h
  · rfl
  · simp at h

theorem dropna_linha_canonica (r : List Celula) (h : linhaCanonica r = true) :
    ([colDs, colY].all fun c => !(obterCelula [colDs, colY] r c == Celula.nulo)) =
      true := by
  unfold linhaCanonica at h
  split at h
  · rfl
  · simp at h

/-- Claim C8: `preparar_dados` is idempotent on canonical input: a frame
that already has the canonical `ds`/`y` columns, parsed timestamps,
numeric null-free values and ascending order comes back with exactly the
same rows — and, when nonempty, as exactly the same frame.  (On the
empty canonical frame the source's early return produces the column-free
`pd.DataFrame()`, still the same empty series.) -/
theorem C8_preparar_dados_idempotente (df : DataFrame) (hc : canonico df = true) :
    (preparar_dados df colDs colY).linhas = df.linhas ∧
      (df.linhas ≠ [] → preparar_dados df colDs colY = df) := by
  unfold canonico at hc
  simp only [Bool.and_eq_true, beq_iff_eq, List.all_eq_true] at hc
  obtain ⟨⟨hcols, hall⟩, hord⟩ := hc
  by_cases hemp : df.linhas = []
  · refine ⟨?_, fun hne => absurd hemp hne⟩
    unfold preparar_dados
    rw [if_pos (by simp [List.isEmpty_iff, hemp])]
    rw [hemp]
    rfl
  · have hfull : preparar_dados df colDs colY = df := by
      unfold preparar_dados
      rw [if_neg (by simp [List.isEmpty_iff]; exact hemp)]
      unfold selecionarColunas
      rw [hcols]
      rw [if_pos (by decide)]
      dsimp only
      have hmap : df.linhas.map
          (fun r => List.map (fun c => obterCelula [colDs, colY] r c) [colDs, colY]) =
          df.linhas :=
        map_id_de_mem _ _ (fun r hrm => proj_linha_canonica r (hall r hrm))
      rw [hmap]
      have hren : renomearParaProphet ⟨[colDs, colY], df.linhas⟩ colDs colY =
          ⟨[colDs, colY], df.linhas⟩ := rfl
      rw [hren]
      have htrav : traverseOption
          (fun r => (toDatetimeCelula (r.getD 0 Celula.nulo)).map (fun v => r.set 0 v))
          df.linhas = some df.linhas :=
        traverseOption_id _ _ (fun r hrm => datetime_linha_canonica r (hall r hrm))
      have hdt : toDatetimeCol ⟨[colDs, colY], df.linhas⟩ colDs =
          some ⟨[colDs, colY], df.linhas⟩ := by
        unfold toDatetimeCol
        dsimp only
        rw [show List.findIdx? (fun n => n == colDs) [colDs, colY] = some 0 from rfl]
        dsimp only
        rw [htrav]
        rfl
      rw [hdt]
      dsimp only
      have hdrop : dropna ⟨[colDs, colY], df.linhas⟩ [colDs, colY] =
          ⟨[colDs, colY], df.linhas⟩ := by
        unfold dropna
        dsimp only
        refine congrArg (fun l => DataFrame.mk [colDs, colY] l) ?_
        exact List.filter_eq_self.mpr (fun r hrm => dropna_linha_canonica r (hall r hrm))
      rw [hdrop]
      have hsort : ordenarPorColuna ⟨[colDs, colY], df.linhas⟩ colDs =
          ⟨[colDs, colY], df.linhas⟩ := by
        unfold ordenarPorColuna
        dsimp only
        refine congrArg (fun l => DataFrame.mk [colDs, colY] l) ?_
        exact ordenarPor_eq_self _ _ hord
      rw [hsort]
      rw [← hcols]
    exact ⟨by rw [hfull], fun _ => hfull⟩

/-- Claim C8 (witness). -/
theorem C8_preparar_dados_idempotente_witness :
    canonico dfCanonicoExemplo = true ∧
      preparar_dados dfCanonicoExemplo colDs colY = dfCanonicoExemplo :=
  ⟨by decide,
    (C8_preparar_dados_idempotente dfCanonicoExemplo (by decide)).2 (by decide)⟩

/-- Claim C5 (amended): every row `preparar_dados` returns carries a
parsed timestamp in its `ds` cell and a non-missing `y` cell (the
`dropna` on both columns), but the value column is NOT coerced to
numeric — a non-null, non-numeric value passes through unchanged, as the
counterexample shows. -/
theorem C5_saida_sem_coercao_numerica (df : DataFrame) (cd cv : String)
    (r : List Celula) (hr : r ∈ (preparar_dados df cd cv).linhas) :
    ∃ d v, r = [Celula.data d, v] ∧ v ≠ Celula.nulo := by
  unfold preparar_dados at hr
  split at hr
  · simp [DataFrame.vazio] at hr
  · cases hsel : selecionarColunas df [cd, cv] with
    | none => rw [hsel] at hr; simp [DataFrame.vazio] at hr
    | some sel =>
      rw [hsel] at hr
      dsimp only at hr
      have hsellen : ∀ r0 ∈ sel.linhas, r0.length = 2 := by
        unfold selecionarColunas at hsel
        split at hsel
        · simp only [Option.some_inj] at hsel
          rw [← hsel]
          intro r0 hr0
          simp only [List.mem_map] at hr0
          obtain ⟨a, _, ha⟩ := hr0
          rw [← ha]
          simp
        · simp at hsel
      have hrenlin : (renomearParaProphet sel cd cv).linhas = sel.linhas := rfl
      cases hdt : toDatetimeCol (renomearParaProphet sel cd cv) colDs with
      | none => rw [hdt] at hr; simp [DataFrame.vazio] at hr
      | some dfd =>
        rw [hdt] at hr
        dsimp only at hr
        have hselc : sel.colunas = [cd, cv] := by
          unfold selecionarColunas at hsel
          split at hsel
          · simp only [Option.some_inj] at hsel
            rw [← hsel]
          · simp at hsel
        cases hcc : (cd == cv) with
        | true =>
          have hrencols : (renomearParaProphet sel cd cv).colunas = [colY, colY] := by
            unfold renomearParaProphet
            dsimp only
            rw [hselc]
            have hcd : (cd == cd) = true := beq_self_eq_true cd
            have hcveq : cd = cv := by rw [← beq_iff_eq]; exact hcc
            have hcv : (cv == cd) = true := by rw [hcveq]; exact beq_self_eq_true cv
            simp [hcc, hcd, hcv]
            intro hne
            exact absurd hcveq.symm hne
          unfold toDatetimeCol at hdt
          rw [hrencols] at hdt
          rw [show List.findIdx? (fun n => n == colDs) [colY, colY] = none from rfl]
            at hdt
          simp at hdt
        | false =>
          have hrencols : (renomearParaProphet sel cd cv).colunas =
              [colDs, colY] := by
            unfold renomearParaProphet
            dsimp only
            rw [hselc]
            have hcd : (cd == cd) = true := beq_self_eq_true cd
            have hcv2 : (cv == cd) = false := by
              rw [beq_eq_false_iff_ne] at hcc ⊢
              exact Ne.symm hcc
            have hcv3 : (cv == cv) = true := beq_self_eq_true cv
            simp [hcc, hcd, hcv2, hcv3]
            intro he
            rw [beq_eq_false_iff_ne] at hcv2
            exact absurd he hcv2
          unfold toDatetimeCol at hdt
          rw [hrencols, hrenlin] at hdt
          rw [show List.findIdx? (fun n => n == colDs) [colDs, colY] = some 0 from rfl]
            at hdt
          dsimp only at hdt
          rw [Option.map_eq_some'] at hdt
          obtain ⟨ls, htrav, hdfd⟩ := hdt
          rw [← hdfd] at hr
          dsimp only [ordenarPorColuna, dropna] at hr
          rw [mem_ordenarPor] at hr
          rw [List.mem_filter] at hr
          obtain ⟨hrls, hpred⟩ := hr
          obtain ⟨r0, hr0, hgr0⟩ := traverseOption_mem _ _ _ htrav r hrls
          rw [Option.map_eq_some'] at hgr0
          obtain ⟨v, hv, hset⟩ := hgr0
          obtain ⟨a, b, hab⟩ := List.length_eq_two.mp (hsellen r0 hr0)
          rw [hab] at hv hset
          have hrvb : r = [v, b] := by rw [← hset]; rfl
          rw [hrvb] at hpred
          simp only [List.all_cons, List.all_nil, obterCelula_ds, obterCelula_y,
            Bool.and_true, Bool.and_eq_true, Bool.not_eq_eq_eq_not, Bool.not_true,
            beq_eq_false_iff_ne] at hpred
          obtain ⟨hvn, hbn⟩ := hpred
          cases toDatetimeCelula_forma _ v hv with
          | inl hd =>
            obtain ⟨d, hd⟩ := hd
            exact ⟨d, b, by rw [hrvb, hd], hbn⟩
          | inr hnulo => exact absurd hnulo hvn

/-- Claim C5 (witness for the amended theorem): the returned row of the
counterexample frame — parsed timestamp, non-missing but NON-numeric
value. -/
theorem C5_saida_sem_coercao_numerica_witness :
    [Celula.data ⟨2023, 1, 1⟩, Celula.texto ("abc")] ∈
        (preparar_dados dfComValorTexto colData colValor).linhas ∧
      (∃ d v, [Celula.data ⟨2023, 1, 1⟩, Celula.texto ("abc")] =
          [Celula.data d, v] ∧ v ≠ Celula.nulo) :=
  ⟨by decide,
    C5_saida_sem_coercao_numerica dfComValorTexto colData colValor
      [Celula.data ⟨2023, 1, 1⟩, Celula.texto ("abc")] (by decide)⟩
